import Mathlib

/-!
Verification of the WindForest text-to-SQL engine (`engine.py`, `formatters.py`)
against its natural-language specification.

The engine's `process_query` is embedded as a pure function over an
`Env` describing the behaviour of its two external collaborators:
the OpenAI chat-completions client and the SQLAlchemy database layer.
Exceptions raised inside the outer `try` block of `process_query` are
modelled by the `.error` channel of `Except`; the outer `except Exception`
handler corresponds to the final `match` in `process_query`.
Besides the returned envelope (a Python dict, embedded as an ordered
association list), the embedding returns the list of SQL strings that were
dispatched to the database layer, so that "no execution attempt occurs"
and "exactly one execution attempt" are statable.
-/

namespace WindForest

/-- Database cell values as produced by the SQLite driver: integers, floats
(modelled as rationals, since no claim depends on binary rounding), strings
and NULL. -/
inductive Value where
  | vInt (n : Int)
  | vFloat (q : Rat)
  | vStr (s : String)
  | vNull
  deriving DecidableEq

/-- Values of the fields of the JSON object decoded from the tool-call
arguments by `json.loads`.  A field is either a JSON string or some
non-string JSON value; for the latter only its Python truthiness and the
message of the exception that `sqlalchemy.text` raises when applied to it
are observable by the engine. -/
inductive JVal where
  | str (s : String)
  | other (truthyFlag : Bool) (textErrMsg : String)
  deriving DecidableEq

/-- Python truthiness of a JSON field value: the empty string is falsy. -/
def truthy : JVal → Bool
  | .str s => !(s == "")
  | .other t _ => t

/-- One row of the success envelope: a Python dict from column name to cell
value, embedded as an association list in insertion order. -/
def Row := List (String × Value)

instance : DecidableEq Row := inferInstanceAs (DecidableEq (List (String × Value)))

/-- Values stored in the returned envelope dict: the JSON value put under
`query`/`rationale`/`error`, or the list of result rows under `results`. -/
inductive EnvVal where
  | jv (v : JVal)
  | rows (rs : List Row)
  deriving DecidableEq

/-- The envelope returned by `process_query`: a Python dict, embedded as an
association list in insertion order. -/
def PyDict := List (String × EnvVal)

instance : DecidableEq PyDict := inferInstanceAs (DecidableEq (List (String × EnvVal)))

/-- Outcome of `json.loads(tool_call.function.arguments)` followed by the
`.get` accesses.  Since the engine passes the raw arguments string only to
`json.loads`, a tool call is modelled by the decode outcome itself:
`decodeError` is a raised `json.JSONDecodeError`; `nonObject` is a JSON
value that is not an object, on which `.get` raises an `AttributeError`
carrying the given message; `obj` is a decoded JSON object (duplicate keys
already collapsed by `json.loads`, last occurrence kept). -/
inductive ToolCallArgs where
  | decodeError (msg : String)
  | nonObject (attrErrMsg : String)
  | obj (fields : List (String × JVal))
  deriving DecidableEq

/-- Outcome of `await client.chat.completions.create(...)` together with the
extraction `completion.choices[0].message.tool_calls`: either the call raised
(message of the exception), or it returned a message whose list of tool calls
is as given (`None` and `[]` are both falsy in Python and are both modelled
by the empty list). -/
inductive ApiOutcome where
  | raise (msg : String)
  | ok (toolCalls : List ToolCallArgs)

/-- Outcome of `connection.execute(text(sql))` / `fetchall` at the database
layer: either an exception (message), or the column names of the projection
together with the full result rows in the database's natural order. -/
inductive ExecOutcome where
  | raise (msg : String)
  | ok (columns : List String) (rows : List (List Value))

/-- The behaviour of the external world during one `process_query` call:
the formatted current date, the completions client as a function of the
prompt, and the database layer as a function of the executed SQL text. -/
structure Env where
  now : String
  api : String → ApiOutcome
  exec : String → ExecOutcome

/-- First-match lookup in an association list, as Python dict subscription /
`.get` behaves on a dict (which holds each key at most once). -/
def lookupKey (k : String) : List (String × α) → Option α
  | [] => none
  | (k1, v) :: rest => if k1 = k then some v else lookupKey k rest

/-- Number of entries of an association list holding the given key. -/
def countKey (k : String) : List (String × α) → Nat
  | [] => 0
  | (k1, _) :: rest => (if k1 = k then 1 else 0) + countKey k rest

/-- One step of Python dict construction: inserting a key updates the value
in place when the key is already present and appends otherwise, which is
exactly CPython's insertion-order semantics. -/
def pyDictInsert (d : List (String × α)) (k : String) (v : α) : List (String × α) :=
  if d.any (fun p => p.1 = k) then
    d.map (fun p => if p.1 = k then (k, v) else p)
  else
    d ++ [(k, v)]

/-- Embedding of Python's `dict(pairs)`: fold the pairs into an empty dict.
Used for `dict(zip(columns, row))` in `process_query`. -/
def pyDict (l : List (String × α)) : List (String × α) :=
  l.foldl (fun d kv => pyDictInsert d kv.1 kv.2) []

-- String constants of the engine (transcribed byte for byte from engine.py).

/-- The schema string returned by `TextToSQLEngine._load_schema`. -/
def schemaText : String :=
  "\n        -- Database Schema\n\n        CREATE TABLE customers (\n            id INTEGER PRIMARY KEY,\n            name TEXT,\n            email TEXT,\n            phone TEXT,\n            address TEXT,\n            segment TEXT,\n            region TEXT,\n            age INTEGER,\n            gender TEXT,\n            income_level REAL,\n            clv REAL,\n            account_creation_date DATE,\n            preferred_contact_method TEXT,\n            purchase_frequency TEXT,\n            seasonal_preference TEXT,\n            last_purchase_date DATE,\n            avg_order_value REAL\n        );\n\n        CREATE TABLE employees (\n            id INTEGER PRIMARY KEY,\n            first_name TEXT,\n            last_name TEXT,\n            title TEXT,\n            department TEXT,\n            manager_id INTEGER,\n            hire_date DATE,\n            termination_date DATE,\n            salary REAL,\n            bonus REAL,\n            commission REAL,\n            kpi_score REAL,\n            shift TEXT,\n            level INTEGER,\n            FOREIGN KEY(manager_id) REFERENCES employees(id)\n        );\n\n        CREATE TABLE suppliers (\n            id INTEGER PRIMARY KEY,\n            name TEXT,\n            contact_name TEXT,\n            address TEXT,\n            rating REAL,\n            location TEXT,\n            contract_terms TEXT,\n            relationship_length INTEGER\n        );\n\n        CREATE TABLE categories (\n            id INTEGER PRIMARY KEY,\n            name TEXT,\n            parent_id INTEGER,\n            popularity REAL,\n            FOREIGN KEY(parent_id) REFERENCES categories(id)\n        );\n\n        CREATE TABLE authors (\n            id INTEGER PRIMARY KEY,\n            name TEXT\n        );\n\n        CREATE TABLE book_authors (\n            book_id INTEGER,\n            author_id INTEGER,\n            PRIMARY KEY (book_id, author_id),\n            FOREIGN KEY(book_id) REFERENCES books(id),\n            FOREIGN KEY(author_id) REFERENCES authors(id)\n        );\n\n        CREATE TABLE customer_service_interactions (\n            id INTEGER PRIMARY KEY,\n            customer_id INTEGER,\n            order_id INTEGER,\n            interaction_date DATE,\n            interaction_type TEXT,\n            channel TEXT,\n            priority TEXT,\n            status TEXT,\n            resolution_date DATE,\n            satisfaction_score INTEGER,\n            notes TEXT,\n            employee_id INTEGER,\n            FOREIGN KEY(customer_id) REFERENCES customers(id),\n            FOREIGN KEY(order_id) REFERENCES orders(id),\n            FOREIGN KEY(employee_id) REFERENCES employees(id)\n        );\n\n        CREATE TABLE book_categories (\n            book_id INTEGER,\n            category_id INTEGER,\n            PRIMARY KEY (book_id, category_id),\n            FOREIGN KEY(book_id) REFERENCES books(id),\n            FOREIGN KEY(category_id) REFERENCES categories(id)\n        );\n\n        CREATE TABLE book_price_history (\n            id INTEGER PRIMARY KEY,\n            book_id INTEGER,\n            price REAL,\n            effective_date DATE,\n            end_date DATE,\n            change_reason TEXT,\n            FOREIGN KEY(book_id) REFERENCES books(id)\n        );\n\n        CREATE TABLE books (\n            id INTEGER PRIMARY KEY,\n            title TEXT,\n            isbn TEXT,\n            format TEXT,\n            language TEXT,\n            price REAL,\n            stock_level INTEGER,\n            safety_stock INTEGER,\n            reorder_point INTEGER,\n            publication_date DATE,\n            supplier_id INTEGER,\n            FOREIGN KEY(supplier_id) REFERENCES suppliers(id)\n        );\n\n        CREATE TABLE shippers (\n            id INTEGER PRIMARY KEY,\n            name TEXT,\n            phone TEXT,\n            service_area TEXT,\n            base_cost REAL,\n            performance_rating REAL\n        );\n\n        CREATE TABLE orders (\n            id INTEGER PRIMARY KEY,\n            order_date DATE,\n            status TEXT,\n            shipping_method TEXT,\n            payment_method TEXT,\n            discount REAL,\n            tax REAL,\n            notes TEXT,\n            customer_id INTEGER,\n            employee_id INTEGER,\n            shipper_id INTEGER,\n            FOREIGN KEY(customer_id) REFERENCES customers(id),\n            FOREIGN KEY(employee_id) REFERENCES employees(id),\n            FOREIGN KEY(shipper_id) REFERENCES shippers(id)\n        );\n\n        CREATE TABLE order_items (\n            id INTEGER PRIMARY KEY,\n            order_id INTEGER,\n            book_id INTEGER,\n            quantity INTEGER,\n            unit_price REAL,\n            FOREIGN KEY(order_id) REFERENCES orders(id),\n            FOREIGN KEY(book_id) REFERENCES books(id)\n        );\n        "

/-- The engine's long-lived state set up in `__init__` before the schema is
loaded: the model identifier and the database connection string. -/
structure EngineState where
  model : String
  dbPath : String

/-- Embedding of `TextToSQLEngine._load_schema`: the Python method reads
nothing from `self` and returns a string literal. -/
def _load_schema (_self : EngineState) : String := schemaText

/-- The `business_context` string built in `process_query`. -/
def businessContext : String :=
  "\n        Business Context:\n        - Customers: Segmented into Retail, Wholesale, and VIP\n          with varying purchase frequencies\n        - Orders: Show seasonal patterns with peaks in November-December (holidays)\n          and July-August (back to school)\n        - Books: Managed with price history, categories, and multiple authors\n        - Customer Service: Tracks interactions, satisfaction scores, and\n          resolution times\n        - Fraud Detection: Monitors for suspicious patterns like multiple\n          same-day orders and unusual shipping\n        - Inventory: Tracks stock levels, safety stock, and reorder points\n        - Suppliers: Rated based on sales performance and stock management\n        "

/-- The `prompt` f-string of `process_query`, with the `current_date`,
`self.schema`, `business_context` and `user_question` interpolations made
explicit. -/
def build_prompt (current_date user_question : String) : String :=
  "\n        You are an SQL expert.\n        Convert the following business question into a precise SQLite query.\n        Current date: "
    ++ current_date
    ++ "\n\n        Database Schema:\n        "
    ++ schemaText
    ++ "\n\n        "
    ++ businessContext
    ++ "\n\n        User Question: "
    ++ user_question
    ++ "\n\n        Important:\n        - Return only valid SQLite syntax\n        - Use appropriate JOINs for table relationships\n        - Consider data patterns and business rules\n        - Limit results to 5 rows unless specified otherwise\n        "

/-- The inner `try` block of lines 322-337 of `engine.py`: execute the SQL,
fetch at most 5 rows, build a dict per row; any exception at the database
layer is caught here and becomes the `SQL execution failed` envelope.
The second component records the SQL dispatched to the database layer. -/
def execBlock (env : Env) (sql_query : String) (rationale : JVal) :
    PyDict × List String :=
  match env.exec sql_query with
  | .raise e => ([("error", .jv (.str ("SQL execution failed: " ++ e)))], [sql_query])
  | .ok columns rows =>
      ([("query", .jv (.str sql_query)),
        ("rationale", .jv rationale),
        ("results", .rows ((rows.take 5).map fun row => pyDict (columns.zip row)))],
       [sql_query])

/-- The body of the outer `try` block of `process_query` (lines 284-337).
The `.error` channel carries an exception that reaches the outer
`except Exception` handler: either the completions call raised, or `.get`
was invoked on a decoded non-object JSON value (an `AttributeError`).
A non-string truthy `query` field makes `sqlalchemy.text` raise inside the
inner execution `try`, hence the `SQL execution failed` envelope there. -/
def tryBlock (env : Env) (user_question : String) :
    Except String (PyDict × List String) :=
  match env.api (build_prompt env.now user_question) with
  | .raise e => .error e
  | .ok toolCalls =>
    match toolCalls with
    | [] => .ok ([("error", .jv (.str "No tool calls found in the response"))], [])
    | tc :: _ =>
      match tc with
      | .decodeError e =>
          .ok ([("error", .jv (.str ("Failed to parse OpenAI response: " ++ e)))], [])
      | .nonObject attrErr => .error attrErr
      | .obj fields =>
        match lookupKey "query" fields, lookupKey "rationale" fields with
        | some qv, some rv =>
          if truthy qv && truthy rv then
            match qv with
            | .str s => .ok (execBlock env s rv)
            | .other _ textErr =>
                .ok ([("error", .jv (.str ("SQL execution failed: " ++ textErr)))], [])
          else
            .ok ([("error", .jv (.str "Missing query or rationale in the response"))], [])
        | _, _ =>
            .ok ([("error", .jv (.str "Missing query or rationale in the response"))], [])

/-- Embedding of `TextToSQLEngine.process_query`: run the outer `try` block;
the outer `except Exception as e` handler turns any escaping exception into
the `OpenAI API call failed` envelope.  Returns the envelope dict together
with the list of SQL strings dispatched to the database layer. -/
def process_query (env : Env) (user_question : String) : PyDict × List String :=
  match tryBlock env user_question with
  | .ok r => r
  | .error e => ([("error", .jv (.str ("OpenAI API call failed: " ++ e)))], [])

-- Lemmas about the Python-dict embedding.

theorem any_key_eq_mem_keys {α : Type} (d : List (String × α)) (k : String) :
    d.any (fun p => p.1 = k) = true ↔ k ∈ d.map Prod.fst := by
  simp [List.any_eq_true]

theorem lookupKey_append {α : Type} (k : String) (d e : List (String × α)) :
    lookupKey k (d ++ e) =
      match lookupKey k d with
      | some v => some v
      | none => lookupKey k e := by
  induction d with
  | nil => rfl
  | cons p rest ih =>
    by_cases hp : p.1 = k
    · simp [lookupKey, hp]
    · simp [lookupKey, hp, ih]

theorem lookupKey_eq_none_of_not_mem {α : Type} {k : String} {d : List (String × α)}
    (h : k ∉ d.map Prod.fst) : lookupKey k d = none := by
  induction d with
  | nil => rfl
  | cons p rest ih =>
    simp only [List.map_cons, List.mem_cons, not_or] at h
    simp only [lookupKey, if_neg (fun hc : p.1 = k => h.1 hc.symm)]
    exact ih h.2

theorem keys_pyDictInsert {α : Type} (d : List (String × α)) (k : String) (v : α) :
    (pyDictInsert d k v).map Prod.fst =
      if k ∈ d.map Prod.fst then d.map Prod.fst else d.map Prod.fst ++ [k] := by
  unfold pyDictInsert
  by_cases h : k ∈ d.map Prod.fst
  · have hany : d.any (fun p => p.1 = k) = true := by
      obtain ⟨p, hp, hpk⟩ := List.mem_map.mp h
      exact List.any_eq_true.mpr ⟨p, hp, by simp [hpk]⟩
    rw [if_pos h, if_pos hany, List.map_map]
    refine List.map_congr_left (fun p _ => ?_)
    by_cases hp : p.1 = k <;> simp [hp]
  · have hany : d.any (fun p => p.1 = k) = false := by
      rw [List.any_eq_false]
      intro p hp
      simp only [decide_eq_true_eq]
      exact fun hc => h (List.mem_map.mpr ⟨p, hp, hc⟩)
    rw [if_neg h, hany]
    simp

theorem lookupKey_mapReplace {α : Type} (d : List (String × α)) (k k1 : String) (v : α) :
    lookupKey k1 (d.map (fun p => if p.1 = k then (k, v) else p)) =
      if k = k1 then (if k ∈ d.map Prod.fst then some v else none)
      else lookupKey k1 d := by
  induction d with
  | nil =>
    by_cases hk : k = k1 <;> simp [lookupKey, hk]
  | cons p rest ih =>
    simp only [List.map_cons]
    by_cases hp : p.1 = k
    · rw [if_pos hp]
      by_cases hk : k = k1
      · subst hk
        simp [lookupKey, hp]
      · simp [lookupKey, ih, hk, hp]
    · rw [if_neg hp]
      simp only [lookupKey]
      by_cases hpk1 : p.1 = k1
      · have hk : ¬k = k1 := fun hc => hp (hpk1.trans hc.symm)
        simp [hpk1, hk]
      · have hkp : ¬k = p.1 := fun hc => hp hc.symm
        rw [if_neg hpk1, ih]
        have hmem : (k ∈ p.1 :: List.map Prod.fst rest) ↔ (k ∈ List.map Prod.fst rest) := by
          simp [List.mem_cons, hkp]
        simp only [hmem]
        rw [if_neg hpk1]

theorem lookupKey_pyDictInsert {α : Type} (d : List (String × α)) (k k1 : String) (v : α) :
    lookupKey k1 (pyDictInsert d k v) =
      if k = k1 then some v else lookupKey k1 d := by
  unfold pyDictInsert
  by_cases hmem : k ∈ d.map Prod.fst
  · rw [if_pos ((any_key_eq_mem_keys d k).mpr hmem), lookupKey_mapReplace, if_pos hmem]
  · rw [if_neg (fun hc => hmem ((any_key_eq_mem_keys d k).mp hc))]
    rw [lookupKey_append]
    by_cases hk : k = k1
    · subst hk
      rw [lookupKey_eq_none_of_not_mem hmem]
      simp [lookupKey]
    · have h1 : lookupKey k1 [(k, v)] = none := by
        simp [lookupKey, fun hc : k = k1 => hk hc]
      cases hcase : lookupKey k1 d <;> simp [hcase, h1, hk]

theorem pyDict_append_singleton {α : Type} (l : List (String × α)) (kv : String × α) :
    pyDict (l ++ [kv]) = pyDictInsert (pyDict l) kv.1 kv.2 := by
  simp [pyDict, List.foldl_append]

theorem keys_pyDict_nodup {α : Type} (l : List (String × α)) :
    ((pyDict l).map Prod.fst).Nodup := by
  induction l using List.reverseRecOn with
  | nil => simp [pyDict]
  | append_singleton l kv ih =>
    rw [pyDict_append_singleton, keys_pyDictInsert]
    by_cases h : kv.1 ∈ (pyDict l).map Prod.fst
    · rw [if_pos h]; exact ih
    · rw [if_neg h]
      refine List.Nodup.append ih (List.nodup_singleton _) ?_
      intro a ha hb
      rw [List.mem_singleton] at hb
      subst hb
      exact h ha

theorem mem_keys_pyDict {α : Type} (l : List (String × α)) (k : String) :
    k ∈ (pyDict l).map Prod.fst ↔ k ∈ l.map Prod.fst := by
  induction l using List.reverseRecOn generalizing k with
  | nil => simp [pyDict]
  | append_singleton l kv ih =>
    rw [pyDict_append_singleton, keys_pyDictInsert]
    by_cases h : kv.1 ∈ (pyDict l).map Prod.fst
    · rw [if_pos h, ih k]
      have hkv : kv.1 ∈ l.map Prod.fst := (ih kv.1).mp h
      simp only [List.map_append, List.mem_append, List.map_cons, List.map_nil]
      constructor
      · exact fun hm => Or.inl hm
      · rintro (hm | hm)
        · exact hm
        · have hek : k = kv.1 := by simpa using hm
          exact hek ▸ hkv
    · rw [if_neg h]
      simp [ih]

theorem lookupKey_pyDict_eq_reverse {α : Type} (l : List (String × α)) (k : String) :
    lookupKey k (pyDict l) = lookupKey k l.reverse := by
  induction l using List.reverseRecOn with
  | nil => rfl
  | append_singleton l kv ih =>
    rw [pyDict_append_singleton, lookupKey_pyDictInsert, List.reverse_append]
    simp only [List.reverse_cons, List.reverse_nil, List.nil_append, List.singleton_append,
      List.append_eq, lookupKey]
    by_cases hk : kv.1 = k
    · rw [if_pos hk, if_pos hk]
    · rw [if_neg hk, if_neg hk, ih]

theorem countKey_eq_zero_of_not_mem {α : Type} {d : List (String × α)} {k : String}
    (h : k ∉ d.map Prod.fst) : countKey k d = 0 := by
  induction d with
  | nil => rfl
  | cons p rest ih =>
    simp only [List.map_cons, List.mem_cons, not_or] at h
    simp only [countKey, if_neg (fun hc : p.1 = k => h.1 hc.symm), Nat.zero_add]
    exact ih h.2

theorem countKey_eq_one_of_nodup_mem {α : Type} {d : List (String × α)} {k : String}
    (hnd : (d.map Prod.fst).Nodup) (hmem : k ∈ d.map Prod.fst) : countKey k d = 1 := by
  induction d with
  | nil => simp at hmem
  | cons p rest ih =>
    simp only [List.map_cons, List.nodup_cons] at hnd
    rcases List.mem_cons.mp hmem with h | h
    · have hzero : countKey k rest = 0 :=
        countKey_eq_zero_of_not_mem (h ▸ hnd.1)
      simp [countKey, h.symm, hzero]
    · have hpk : ¬p.1 = k := by
        intro hc
        exact hnd.1 (hc ▸ h)
      simp [countKey, hpk, ih hnd.2 h]

theorem countKey_pyDict {α : Type} (l : List (String × α)) (k : String) :
    countKey k (pyDict l) = if k ∈ l.map Prod.fst then 1 else 0 := by
  by_cases h : k ∈ l.map Prod.fst
  · rw [if_pos h]
    exact countKey_eq_one_of_nodup_mem (keys_pyDict_nodup l) ((mem_keys_pyDict l k).mpr h)
  · rw [if_neg h]
    exact countKey_eq_zero_of_not_mem (fun hc => h ((mem_keys_pyDict l k).mp hc))

theorem pyDict_eq_self_of_nodup_keys {α : Type} (l : List (String × α))
    (h : (l.map Prod.fst).Nodup) : pyDict l = l := by
  induction l using List.reverseRecOn with
  | nil => rfl
  | append_singleton l kv ih =>
    rw [List.map_append] at h
    have hl : (l.map Prod.fst).Nodup := h.of_append_left
    have hdisj := List.disjoint_of_nodup_append h
    have hnot : kv.1 ∉ l.map Prod.fst := by
      intro hc
      exact hdisj hc (by simp)
    rw [pyDict_append_singleton, ih hl]
    unfold pyDictInsert
    rw [if_neg ?hne]
    case hne =>
      intro hc
      rw [any_key_eq_mem_keys] at hc
      exact hnot hc

-- Embedding of formatters.py.

/-- Python `sep.join(parts)`. -/
def pyJoin (sep : String) : List String → String
  | [] => ""
  | [x] => x
  | x :: y :: xs => x ++ sep ++ pyJoin sep (y :: xs)

/-- Decimal digit characters of a natural number, most significant first,
`"0"` for zero — the digits produced by Python string conversion of an `int`. -/
def decimalChars (n : Nat) : List Char :=
  if n = 0 then ['0'] else ((Nat.digits 10 n).map Nat.digitChar).reverse

/-- Grouping of a reversed digit list into blocks of three, least significant
block first; the leftover block of one or two digits comes last. -/
def groupsRev : List Char → List (List Char)
  | [] => []
  | [a] => [[a]]
  | [a, b] => [[a, b]]
  | a :: b :: c :: rest => [a, b, c] :: groupsRev rest

/-- The comma groups of a digit list in display order, as strings. -/
def commaChunks (ds : List Char) : List String :=
  ((groupsRev ds.reverse).reverse).map fun g => String.mk g.reverse

/-- Python `f"{n:,}"` for a non-negative integer: thousands separators every
three digits. -/
def natComma (n : Nat) : String := pyJoin "," (commaChunks (decimalChars n))

/-- Python `f"{n:,}"` for an `int`: sign followed by the grouped digits of the
absolute value. -/
def intComma (n : Int) : String := (if n < 0 then "-" else "") ++ natComma n.natAbs

/-- Rounding to the nearest integer with ties to even, the rounding mode of
Python float formatting. -/
def roundHalfEvenQ (q : Rat) : Int :=
  let f : Int := ⌊q⌋
  let r : Rat := q - f
  if r < 1 / 2 then f
  else if 1 / 2 < r then f + 1
  else if f % 2 = 0 then f else f + 1

/-- Two decimal digit characters of a number below 100. -/
def twoDigits (fp : Nat) : String :=
  String.mk [Nat.digitChar (fp / 10), Nat.digitChar (fp % 10)]

/-- Python `f"{x:,.2f}"`: sign of the value, the integer part with thousands
separators, a decimal point, and exactly two fractional digits obtained by
rounding the magnitude to hundredths (ties to even).  The float is modelled
as a rational. -/
def pyFloatStr2 (q : Rat) : String :=
  (if q < 0 then "-" else "")
    ++ natComma ((roundHalfEvenQ (|q| * 100)).toNat / 100)
    ++ "."
    ++ twoDigits ((roundHalfEvenQ (|q| * 100)).toNat % 100)

/-- Embedding of `formatters.format_cell_value`: floats get thousands
separators and two decimal places, ints get thousands separators, `str`
is applied to everything else (`str(None)` is `"None"`). -/
def format_cell_value : Value → String
  | .vFloat q => pyFloatStr2 q
  | .vInt n => intComma n
  | .vStr s => s
  | .vNull => "None"

/-- The cell `row[col]` of a result row.  Python raises a `KeyError` when the
key is absent; the embedding totalises that case with `vNull`, which never
arises for the rows the engine produces (every row carries every header). -/
def cellAt (row : Row) (col : String) : Value :=
  (lookupKey col row).getD .vNull

/-- Embedding of `formatters.format_results_as_markdown_table`: the
`"No results found."` message on an empty list, otherwise a header row built
from the first row's keys, a separator row, and one `+=` step per result row,
each cell rendered by `format_cell_value`. -/
def format_results_as_markdown_table (results : List Row) : String :=
  match results with
  | [] => "\n**Results:** No results found."
  | r0 :: _ =>
    let headers := r0.map Prod.fst
    let table0 := "| " ++ pyJoin " | " headers ++ " |\n"
    let table1 := table0 ++ "| " ++ pyJoin " | " (headers.map fun _ => "---") ++ " |\n"
    let table2 := results.foldl
      (fun t row =>
        t ++ ("| " ++ pyJoin " | " (headers.map fun c => format_cell_value (cellAt row c)) ++ " |\n"))
      table1
    "\n**Results:**\n" ++ table2

-- Specification-side predicates for C8, following the words of the spec:
-- "formatting floating-point cells with thousands separators and two decimal
-- places, integer cells with thousands separators".

/-- The string is the decimal digits of `m` split into comma-separated groups:
every group after the first has exactly three digits, the first has one to
three, and removing the separators yields the plain decimal digits of `m`. -/
def DigitGroups (body : String) (m : Nat) : Prop :=
  ∃ gs : List String,
    gs ≠ [] ∧
    body = pyJoin "," gs ∧
    (∀ g ∈ gs, 1 ≤ g.length ∧ g.length ≤ 3 ∧ ∀ c ∈ g.data, c.isDigit = true) ∧
    (∀ g ∈ gs.tail, g.length = 3) ∧
    pyJoin "" gs = String.mk (decimalChars m)

/-- The string renders the integer `n` with thousands separators: an optional
leading minus sign followed by the digit groups of `|n|`. -/
def IntGrouped (s : String) (n : Int) : Prop :=
  ∃ body, s = (if n < 0 then "-" else "") ++ body ∧ DigitGroups body n.natAbs

/-- The string renders a float with thousands separators and exactly two
decimal places: optional sign, grouped integer part, a point, two digits. -/
def TwoDecimalsGrouped (s : String) : Prop :=
  ∃ (sign ipart fpart : String) (m : Nat),
    (sign = "" ∨ sign = "-") ∧
    s = sign ++ ipart ++ "." ++ fpart ∧
    fpart.length = 2 ∧
    (∀ c ∈ fpart.data, c.isDigit = true) ∧
    DigitGroups ipart m

-- Lemmas about digit grouping and joining.

theorem groupsRev_flatten (l : List Char) : (groupsRev l).flatten = l := by
  induction l using groupsRev.induct with
  | case1 => rfl
  | case2 a => rfl
  | case3 a b => rfl
  | case4 a b c rest ih => simp [groupsRev, ih]

theorem groupsRev_eq_nil_iff (l : List Char) : groupsRev l = [] ↔ l = [] := by
  induction l using groupsRev.induct with
  | case1 => simp [groupsRev]
  | case2 a => simp [groupsRev]
  | case3 a b => simp [groupsRev]
  | case4 a b c rest ih => simp [groupsRev]

theorem groupsRev_mem_length {l : List Char} {g : List Char} (h : g ∈ groupsRev l) :
    1 ≤ g.length ∧ g.length ≤ 3 := by
  induction l using groupsRev.induct with
  | case1 => simp [groupsRev] at h
  | case2 a =>
    simp only [groupsRev, List.mem_singleton] at h
    subst h; simp
  | case3 a b =>
    simp only [groupsRev, List.mem_singleton] at h
    subst h; simp
  | case4 a b c rest ih =>
    simp only [groupsRev, List.mem_cons] at h
    rcases h with h | h
    · subst h; simp
    · exact ih h

theorem groupsRev_dropLast_length {l : List Char} {g : List Char}
    (h : g ∈ (groupsRev l).dropLast) : g.length = 3 := by
  induction l using groupsRev.induct with
  | case1 => simp [groupsRev] at h
  | case2 a => simp [groupsRev] at h
  | case3 a b => simp [groupsRev] at h
  | case4 a b c rest ih =>
    by_cases hr : groupsRev rest = []
    · simp [groupsRev, hr] at h
    · rw [show groupsRev (a :: b :: c :: rest) = [a, b, c] :: groupsRev rest from rfl,
        List.dropLast_cons_of_ne_nil hr] at h
      rcases List.mem_cons.mp h with h | h
      · subst h; rfl
      · exact ih h

theorem pyJoin_nil_sep_data (gs : List String) :
    (pyJoin "" gs).data = (gs.map String.data).flatten := by
  induction gs with
  | nil => rfl
  | cons x rest ih =>
    cases rest with
    | nil => simp [pyJoin]
    | cons y xs =>
      rw [show pyJoin "" (x :: y :: xs) = x ++ "" ++ pyJoin "" (y :: xs) from rfl]
      simp only [String.data_append, ih, List.map_cons, List.flatten_cons]
      simp

theorem decimalChars_ne_nil (n : Nat) : decimalChars n ≠ [] := by
  unfold decimalChars
  by_cases h : n = 0
  · simp [h]
  · simp only [if_neg h, ne_eq, List.reverse_eq_nil_iff, List.map_eq_nil_iff]
    exact Nat.digits_ne_nil_iff_ne_zero.mpr h

theorem digitChar_isDigit : ∀ d : Nat, d < 10 → (Nat.digitChar d).isDigit = true := by
  decide

theorem decimalChars_digits (n : Nat) : ∀ c ∈ decimalChars n, c.isDigit = true := by
  intro c hc
  unfold decimalChars at hc
  by_cases h : n = 0
  · rw [if_pos h] at hc
    simp only [List.mem_singleton] at hc
    subst hc; rfl
  · rw [if_neg h, List.mem_reverse] at hc
    obtain ⟨d, hd, hdc⟩ := List.mem_map.mp hc
    exact hdc ▸ digitChar_isDigit d (Nat.digits_lt_base (by norm_num) hd)

theorem digitGroups_natComma (n : Nat) : DigitGroups (natComma n) n := by
  refine ⟨commaChunks (decimalChars n), ?_, rfl, ?_, ?_, ?_⟩
  · unfold commaChunks
    simp only [ne_eq, List.map_eq_nil_iff, List.reverse_eq_nil_iff]
    rw [groupsRev_eq_nil_iff]
    simp only [List.reverse_eq_nil_iff]
    exact decimalChars_ne_nil n
  · intro g hg
    obtain ⟨gg, hgg, hggdef⟩ := List.mem_map.mp hg
    rw [List.mem_reverse] at hgg
    have hlen := groupsRev_mem_length hgg
    subst hggdef
    refine ⟨?_, ?_, ?_⟩
    · simpa [String.length_mk] using hlen.1
    · simpa [String.length_mk] using hlen.2
    · intro c hc
      simp only [List.mem_reverse] at hc
      have hcds : c ∈ (decimalChars n).reverse := by
        rw [← groupsRev_flatten ((decimalChars n).reverse)]
        exact List.mem_flatten.mpr ⟨gg, hgg, hc⟩
      rw [List.mem_reverse] at hcds
      exact decimalChars_digits n c hcds
  · intro g hg
    unfold commaChunks at hg
    have htailmap : ∀ (L : List (List Char)),
        (L.map fun g => String.mk g.reverse).tail =
          L.tail.map fun g => String.mk g.reverse := by
      intro L; cases L <;> rfl
    rw [htailmap] at hg
    obtain ⟨gg, hgg, hggdef⟩ := List.mem_map.mp hg
    rw [List.tail_reverse_eq_reverse_dropLast, List.mem_reverse] at hgg
    subst hggdef
    simpa [String.length_mk] using groupsRev_dropLast_length hgg
  · apply String.ext
    rw [pyJoin_nil_sep_data]
    unfold commaChunks
    rw [List.map_map]
    have hdata : (String.data ∘ fun g : List Char => String.mk g.reverse) =
        fun g : List Char => g.reverse := rfl
    rw [hdata, List.map_reverse, ← List.reverse_flatten, groupsRev_flatten,
      List.reverse_reverse]

theorem intGrouped_intComma (n : Int) : IntGrouped (intComma n) n :=
  ⟨natComma n.natAbs, rfl, digitGroups_natComma n.natAbs⟩

theorem twoDigits_length (fp : Nat) : (twoDigits fp).length = 2 := by
  simp [twoDigits, String.length_mk]

theorem twoDigits_digits {fp : Nat} (h : fp < 100) :
    ∀ c ∈ (twoDigits fp).data, c.isDigit = true := by
  intro c hc
  have h1 : fp / 10 < 10 := Nat.div_lt_of_lt_mul (by omega)
  have h2 : fp % 10 < 10 := Nat.mod_lt _ (by norm_num)
  have hdata : (twoDigits fp).data = [Nat.digitChar (fp / 10), Nat.digitChar (fp % 10)] := rfl
  rw [hdata] at hc
  rcases List.mem_cons.mp hc with hc | hc
  · exact hc ▸ digitChar_isDigit _ h1
  · rcases List.mem_cons.mp hc with hc | hc
    · exact hc ▸ digitChar_isDigit _ h2
    · simp at hc

theorem twoDecimalsGrouped_pyFloatStr2 (q : Rat) : TwoDecimalsGrouped (pyFloatStr2 q) := by
  refine ⟨(if q < 0 then "-" else ""),
    natComma ((roundHalfEvenQ (|q| * 100)).toNat / 100), twoDigits ((roundHalfEvenQ (|q| * 100)).toNat % 100),
    (roundHalfEvenQ (|q| * 100)).toNat / 100, ?_, rfl, twoDigits_length _,
    twoDigits_digits (Nat.mod_lt _ (by norm_num)), digitGroups_natComma _⟩
  by_cases hq : q < 0
  · rw [if_pos hq]; right; rfl
  · rw [if_neg hq]; left; rfl

theorem foldl_append_rows (l : List Row) (f : Row → String) (init : String) :
    l.foldl (fun t row => t ++ f row) init = init ++ pyJoin "" (l.map f) := by
  induction l generalizing init with
  | nil => simp [pyJoin, String.append_empty]
  | cons a rest ih =>
    simp only [List.foldl_cons, List.map_cons]
    rw [ih]
    cases rest with
    | nil => simp [pyJoin, String.append_empty]
    | cons b xs =>
      simp only [List.map_cons]
      rw [show pyJoin "" (f a :: f b :: xs.map f) =
        f a ++ "" ++ pyJoin "" (f b :: xs.map f) from rfl]
      rw [String.append_empty, String.append_assoc]

-- Envelope shape of every exit path of process_query.

theorem tryBlock_ok_shape (env : Env) (uq : String) (r : PyDict × List String)
    (h : tryBlock env uq = Except.ok r) :
    (∃ m, r.1 = [("error", EnvVal.jv (JVal.str m))]) ∨
      (∃ s rv rs, r.1 =
        [("query", EnvVal.jv (JVal.str s)), ("rationale", EnvVal.jv rv),
          ("results", EnvVal.rows rs)]) := by
  unfold tryBlock at h
  split at h
  · exact Except.noConfusion h
  · split at h
    · cases h
      exact Or.inl ⟨_, rfl⟩
    · split at h
      · cases h
        exact Or.inl ⟨_, rfl⟩
      · exact Except.noConfusion h
      · split at h
        · split at h
          · split at h
            · cases h
              unfold execBlock
              split
              · exact Or.inl ⟨_, rfl⟩
              · exact Or.inr ⟨_, _, _, rfl⟩
            · cases h
              exact Or.inl ⟨_, rfl⟩
          · cases h
            exact Or.inl ⟨_, rfl⟩
        · cases h
          exact Or.inl ⟨_, rfl⟩

theorem process_query_shape (env : Env) (uq : String) :
    (∃ m, (process_query env uq).1 = [("error", EnvVal.jv (JVal.str m))]) ∨
      (∃ s rv rs, (process_query env uq).1 =
        [("query", EnvVal.jv (JVal.str s)), ("rationale", EnvVal.jv rv),
          ("results", EnvVal.rows rs)]) := by
  unfold process_query
  cases htb : tryBlock env uq with
  | error e => exact Or.inl ⟨_, rfl⟩
  | ok r => exact tryBlock_ok_shape env uq r htb

/-- C1: every envelope returned by `process_query` has exactly one of two key
shapes: the single key `error`, or exactly the three keys `query`,
`rationale`, `results` (in that order) — never both an error and success
keys, and never neither. -/
theorem C1_envelope_exclusivity (env : Env) (uq : String) :
    (process_query env uq).1.map Prod.fst = ["error"] ∨
      (process_query env uq).1.map Prod.fst = ["query", "rationale", "results"] := by
  rcases process_query_shape env uq with ⟨m, hm⟩ | ⟨s, rv, rs, hs⟩
  · rw [hm]
    exact Or.inl rfl
  · rw [hs]
    exact Or.inr rfl

/-- C3: whatever the completion client and the database layer do — including
raising arbitrary exceptions, which the embedding models through the
environment's `raise` outcomes and the `Except` channel of `tryBlock` —
`process_query` always returns a dict that is either an error envelope or a
success envelope; no exception escapes to the caller. -/
theorem C3_no_exception_escapes (env : Env) (uq : String) :
    (∃ m, (process_query env uq).1 = [("error", EnvVal.jv (JVal.str m))]) ∨
      (∃ s rv rs, (process_query env uq).1 =
        [("query", EnvVal.jv (JVal.str s)), ("rationale", EnvVal.jv rv),
          ("results", EnvVal.rows rs)]) :=
  process_query_shape env uq

/-- C6: when the model's message carries zero tool calls, `process_query`
returns exactly the constant envelope
`[error: No tool calls found in the response]`, dispatches no SQL to the
database, and the constant message contains no schema content (witnessed by
the absence of the `CREATE TABLE` marker every schema table carries). -/
theorem C6_no_tool_calls (env : Env) (uq : String)
    (h : env.api (build_prompt env.now uq) = ApiOutcome.ok []) :
    process_query env uq =
      ([("error", EnvVal.jv (JVal.str "No tool calls found in the response"))], [])
    ∧ ¬ "CREATE TABLE".data <+: "No tool calls found in the response".data
    ∧ ¬ "CREATE TABLE".data <:+: "No tool calls found in the response".data := by
  refine ⟨?_, by decide, by decide⟩
  unfold process_query tryBlock
  rw [h]

/-- Concrete witness for C6: an environment whose completion client returns a
message with an empty tool-call list. -/
def envC6 : Env :=
  ⟨"2024-01-01", fun _ => ApiOutcome.ok [], fun _ => ExecOutcome.raise "unused"⟩

theorem C6_no_tool_calls_witness :
    process_query envC6 "Who are our top customers?" =
      ([("error", EnvVal.jv (JVal.str "No tool calls found in the response"))], [])
    ∧ ¬ "CREATE TABLE".data <+: "No tool calls found in the response".data
    ∧ ¬ "CREATE TABLE".data <:+: "No tool calls found in the response".data :=
  C6_no_tool_calls envC6 "Who are our top customers?" rfl

/-- C4: when the decoded tool-call payload has a missing or empty `query`, or
a missing or empty `rationale`, `process_query` answers with exactly the
`Missing query or rationale in the response` envelope and no SQL is ever
dispatched to the database layer. -/
theorem C4_validation_short_circuit (env : Env) (uq : String)
    (fields : List (String × JVal)) (rest : List ToolCallArgs)
    (happi : env.api (build_prompt env.now uq) =
      ApiOutcome.ok (ToolCallArgs.obj fields :: rest))
    (hmiss : lookupKey "query" fields = none
      ∨ lookupKey "query" fields = some (JVal.str "")
      ∨ lookupKey "rationale" fields = none
      ∨ lookupKey "rationale" fields = some (JVal.str "")) :
    process_query env uq =
      ([("error", EnvVal.jv (JVal.str "Missing query or rationale in the response"))], []) := by
  unfold process_query tryBlock
  rw [happi]
  dsimp only
  rcases hmiss with h | h | h | h
  · rw [h]
  · rw [h]
    cases hr : lookupKey "rationale" fields with
    | none => rfl
    | some rv => rfl
  · rw [h]
    cases hq : lookupKey "query" fields with
    | none => rfl
    | some qv => rfl
  · rw [h]
    cases hq : lookupKey "query" fields with
    | none => rfl
    | some qv => simp [truthy]

/-- Concrete witness for C4: the model answers with an empty `query`. -/
def envC4 : Env :=
  ⟨"2024-01-01",
    fun _ => ApiOutcome.ok
      [ToolCallArgs.obj [("query", JVal.str ""), ("rationale", JVal.str "some reasoning")]],
    fun _ => ExecOutcome.raise "unused"⟩

theorem C4_validation_short_circuit_witness :
    process_query envC4 "How many orders last month?" =
      ([("error", EnvVal.jv (JVal.str "Missing query or rationale in the response"))], []) :=
  C4_validation_short_circuit envC4 "How many orders last month?"
    [("query", JVal.str ""), ("rationale", JVal.str "some reasoning")] [] rfl
    (Or.inr (Or.inl rfl))

/-- C7: when the database layer raises on the generated SQL, `process_query`
catches the exception and returns the `SQL execution failed` envelope with
the driver message appended; the dispatch log `[s]` shows exactly one
execution attempt (no retry), and returning a dict rather than raising is
the no-propagation part of the claim. -/
theorem C7_execution_failure_isolation (env : Env) (uq : String)
    (fields : List (String × JVal)) (rest : List ToolCallArgs)
    (s : String) (rv : JVal) (e : String)
    (happi : env.api (build_prompt env.now uq) =
      ApiOutcome.ok (ToolCallArgs.obj fields :: rest))
    (hq : lookupKey "query" fields = some (JVal.str s)) (hs : s ≠ "")
    (hr : lookupKey "rationale" fields = some rv) (hrt : truthy rv = true)
    (hex : env.exec s = ExecOutcome.raise e) :
    process_query env uq =
      ([("error", EnvVal.jv (JVal.str ("SQL execution failed: " ++ e)))], [s]) := by
  unfold process_query tryBlock
  rw [happi]
  dsimp only
  rw [hq, hr]
  dsimp only
  have htr : truthy (JVal.str s) = true := by
    simp [truthy, hs]
  rw [htr, hrt, if_pos (show (true && true) = true from rfl)]
  unfold execBlock
  rw [hex]

/-- Concrete witness for C7: the model emits SQL naming a missing table and
the database layer raises. -/
def envC7 : Env :=
  ⟨"2024-01-01",
    fun _ => ApiOutcome.ok
      [ToolCallArgs.obj
        [("query", JVal.str "SELECT * FROM nonexistent_table"),
         ("rationale", JVal.str "look at the table")]],
    fun _ => ExecOutcome.raise "no such table: nonexistent_table"⟩

theorem C7_execution_failure_isolation_witness :
    process_query envC7 "Show the nonexistent table" =
      ([("error", EnvVal.jv
          (JVal.str ("SQL execution failed: " ++ "no such table: nonexistent_table")))],
        ["SELECT * FROM nonexistent_table"]) :=
  C7_execution_failure_isolation envC7 "Show the nonexistent table"
    [("query", JVal.str "SELECT * FROM nonexistent_table"),
     ("rationale", JVal.str "look at the table")] []
    "SELECT * FROM nonexistent_table" (JVal.str "look at the table")
    "no such table: nonexistent_table" rfl rfl (by decide) rfl rfl rfl

/-- C2: when the database layer succeeds, `process_query` returns the success
envelope whose `results` are the first 5 rows (in the database's order) of
the full result set, each converted to a mapping from the projection's
column names to the cell values; at most 5 rows are ever returned, and
exactly 5 whenever the full result set is larger.  Distinct column names and
full-width rows are assumed, as in the claim (duplicate names are C10). -/
theorem C2_row_cap (env : Env) (uq : String)
    (fields : List (String × JVal)) (rest : List ToolCallArgs)
    (s : String) (rv : JVal) (cols : List String) (rows : List (List Value))
    (happi : env.api (build_prompt env.now uq) =
      ApiOutcome.ok (ToolCallArgs.obj fields :: rest))
    (hq : lookupKey "query" fields = some (JVal.str s)) (hs : s ≠ "")
    (hr : lookupKey "rationale" fields = some rv) (hrt : truthy rv = true)
    (hex : env.exec s = ExecOutcome.ok cols rows)
    (hnodup : cols.Nodup)
    (hlen : ∀ r ∈ rows, r.length = cols.length) :
    process_query env uq =
      ([("query", EnvVal.jv (JVal.str s)), ("rationale", EnvVal.jv rv),
        ("results", EnvVal.rows ((rows.take 5).map fun r => cols.zip r))], [s])
    ∧ ((rows.take 5).map fun r => cols.zip r).length ≤ 5
    ∧ (5 < rows.length → ((rows.take 5).map fun r => cols.zip r).length = 5) := by
  refine ⟨?_, ?_, ?_⟩
  · unfold process_query tryBlock
    rw [happi]
    dsimp only
    rw [hq, hr]
    dsimp only
    have htr : truthy (JVal.str s) = true := by
      simp [truthy, hs]
    rw [htr, hrt, if_pos (show (true && true) = true from rfl)]
    unfold execBlock
    rw [hex]
    dsimp only
    have hmap : (rows.take 5).map (fun r => pyDict (cols.zip r)) =
        (rows.take 5).map fun r => cols.zip r := by
      refine List.map_congr_left (fun r hrmem => ?_)
      have hrlen : r.length = cols.length := hlen r (List.mem_of_mem_take hrmem)
      have hkeys : (cols.zip r).map Prod.fst = cols :=
        List.map_fst_zip cols r (le_of_eq hrlen.symm)
      have hnd : ((cols.zip r).map Prod.fst).Nodup := by
        rw [hkeys]; exact hnodup
      exact pyDict_eq_self_of_nodup_keys _ hnd
    rw [hmap]
  · simp [List.length_take]
  · intro hgt
    simp only [List.length_map, List.length_take]
    omega

/-- Concrete witness for C2: a single-column result set with six rows, of
which exactly the first five are returned. -/
def envC2 : Env :=
  ⟨"2024-01-01",
    fun _ => ApiOutcome.ok
      [ToolCallArgs.obj
        [("query", JVal.str "SELECT id FROM books"),
         ("rationale", JVal.str "list book ids")]],
    fun _ => ExecOutcome.ok ["id"]
      [[Value.vInt 1], [Value.vInt 2], [Value.vInt 3],
       [Value.vInt 4], [Value.vInt 5], [Value.vInt 6]]⟩

theorem C2_row_cap_witness :
    (process_query envC2 "List the book ids" =
      ([("query", EnvVal.jv (JVal.str "SELECT id FROM books")),
        ("rationale", EnvVal.jv (JVal.str "list book ids")),
        ("results", EnvVal.rows
          (([[Value.vInt 1], [Value.vInt 2], [Value.vInt 3],
             [Value.vInt 4], [Value.vInt 5], [Value.vInt 6]].take 5).map
            fun r => ["id"].zip r))], ["SELECT id FROM books"])
    ∧ (([[Value.vInt 1], [Value.vInt 2], [Value.vInt 3],
         [Value.vInt 4], [Value.vInt 5], [Value.vInt 6]].take 5).map
        (fun r => ["id"].zip r)).length ≤ 5
    ∧ (5 < [[Value.vInt 1], [Value.vInt 2], [Value.vInt 3],
            [Value.vInt 4], [Value.vInt 5], [Value.vInt 6]].length →
        (([[Value.vInt 1], [Value.vInt 2], [Value.vInt 3],
           [Value.vInt 4], [Value.vInt 5], [Value.vInt 6]].take 5).map
          (fun r => ["id"].zip r)).length = 5)) :=
  C2_row_cap envC2 "List the book ids"
    [("query", JVal.str "SELECT id FROM books"),
     ("rationale", JVal.str "list book ids")] []
    "SELECT id FROM books" (JVal.str "list book ids") ["id"]
    [[Value.vInt 1], [Value.vInt 2], [Value.vInt 3],
     [Value.vInt 4], [Value.vInt 5], [Value.vInt 6]]
    rfl rfl (by decide) rfl rfl rfl (by decide) (by decide)

/-- Environment refuting C5 as stated: the tool call carries arguments that
are valid JSON but not an object (for example a JSON array), so `json.loads`
succeeds and the subsequent `.get` raises an `AttributeError`, which is
caught by the outer handler, not by the `json.JSONDecodeError` handler. -/
def envC5 : Env :=
  ⟨"2024-01-01",
    fun _ => ApiOutcome.ok [ToolCallArgs.nonObject "list object has no attribute get"],
    fun _ => ExecOutcome.raise "unused"⟩

/-- C5 counterexample: arguments that are not parseable as the expected
structured payload (a JSON array) do NOT produce the
`Failed to parse OpenAI response:` envelope; they surface through the
generic handler as an `OpenAI API call failed:` envelope (while still
performing no SQL execution).  This refutes the claim that every
non-parseable payload yields the MalformedArguments envelope. -/
theorem C5_nonobject_counterexample :
    process_query envC5 "Show top suppliers" =
      ([("error", EnvVal.jv
          (JVal.str "OpenAI API call failed: list object has no attribute get"))], [])
    ∧ ¬ "Failed to parse OpenAI response: ".data <+:
        "OpenAI API call failed: list object has no attribute get".data :=
  ⟨rfl, by decide⟩

/-- C5 amended: only a failure of JSON decoding of the tool-call arguments
produces the MalformedArguments envelope
`Failed to parse OpenAI response: <detail>`, with no SQL execution; its
message never coincides with an ApiFailure message prefix.  Arguments that
decode to a non-object JSON value instead surface through the outer handler
as `OpenAI API call failed: <detail>` (see the counterexample). -/
theorem C5_malformed_arguments (env : Env) (uq : String) (e : String)
    (rest : List ToolCallArgs)
    (happi : env.api (build_prompt env.now uq) =
      ApiOutcome.ok (ToolCallArgs.decodeError e :: rest)) :
    process_query env uq =
      ([("error", EnvVal.jv (JVal.str ("Failed to parse OpenAI response: " ++ e)))], [])
    ∧ ¬ "OpenAI API call failed: ".data <+:
        ("Failed to parse OpenAI response: " ++ e).data := by
  constructor
  · unfold process_query tryBlock
    rw [happi]
  · rintro ⟨t, ht⟩
    have h1 : ("OpenAI API call failed: ".data ++ t).head? = some 'O' := rfl
    have h2 : (("Failed to parse OpenAI response: " ++ e).data).head? = some 'F' := by
      rw [String.data_append]
      rfl
    rw [ht, h2] at h1
    simp at h1

/-- Concrete witness for the amended C5: invalid JSON in the arguments. -/
def envC5w : Env :=
  ⟨"2024-01-01",
    fun _ => ApiOutcome.ok [ToolCallArgs.decodeError "Expecting value: line 1 column 1 (char 0)"],
    fun _ => ExecOutcome.raise "unused"⟩

theorem C5_malformed_arguments_witness :
    process_query envC5w "Show top suppliers" =
      ([("error", EnvVal.jv (JVal.str
          ("Failed to parse OpenAI response: "
            ++ "Expecting value: line 1 column 1 (char 0)")))], [])
    ∧ ¬ "OpenAI API call failed: ".data <+:
        ("Failed to parse OpenAI response: "
          ++ "Expecting value: line 1 column 1 (char 0)").data :=
  C5_malformed_arguments envC5w "Show top suppliers"
    "Expecting value: line 1 column 1 (char 0)" [] rfl

/-- C9: the Schema Provider is deterministic and reads nothing from the
engine state: `_load_schema` returns byte-identical text for any two engine
states, in any order of invocation. -/
theorem C9_schema_provider_deterministic (s₁ s₂ : EngineState) :
    _load_schema s₁ = _load_schema s₂ := rfl

/-- C10: when the projection holds the same column name twice (the name
occurs in the prefix `xs` and once more after it, with no later occurrence),
the row dict built by `dict(zip(columns, row))` holds exactly one entry for
that name, and its value is the one of the last duplicated column; the
earlier columns' values are absent from the mapping. -/
theorem C10_duplicate_columns (cols : List String) (vals : List Value)
    (name : String) (xs ys : List String) (vs ws : List Value) (v : Value)
    (hc : cols = xs ++ name :: ys) (hv : vals = vs ++ v :: ws)
    (hlx : xs.length = vs.length) (hly : ys.length = ws.length)
    (_hdup : name ∈ xs) (hlast : name ∉ ys) :
    countKey name (pyDict (cols.zip vals)) = 1
    ∧ lookupKey name (pyDict (cols.zip vals)) = some v := by
  subst hc
  subst hv
  have hzip : (xs ++ name :: ys).zip (vs ++ v :: ws) =
      xs.zip vs ++ (name, v) :: ys.zip ws := by
    rw [List.zip_append hlx]
    rfl
  have hnotys : name ∉ ((ys.zip ws).reverse).map Prod.fst := by
    intro hm
    rw [List.map_reverse, List.mem_reverse] at hm
    rw [List.map_fst_zip ys ws (le_of_eq hly)] at hm
    exact hlast hm
  constructor
  · rw [hzip, countKey_pyDict, if_pos ?hmem]
    case hmem => simp
  · rw [hzip, lookupKey_pyDict_eq_reverse, List.reverse_append, List.reverse_cons,
      List.append_assoc, lookupKey_append, lookupKey_eq_none_of_not_mem hnotys]
    simp [lookupKey]

/-- Concrete witness for C10: projection `a, b, a` with row `1, 2, 3` gives
a mapping holding `a` once, with the value 3 of the last `a` column. -/
theorem C10_duplicate_columns_witness :
    countKey "a" (pyDict (["a", "b", "a"].zip
      [Value.vInt 1, Value.vInt 2, Value.vInt 3])) = 1
    ∧ lookupKey "a" (pyDict (["a", "b", "a"].zip
        [Value.vInt 1, Value.vInt 2, Value.vInt 3])) = some (Value.vInt 3) :=
  C10_duplicate_columns ["a", "b", "a"] [Value.vInt 1, Value.vInt 2, Value.vInt 3]
    "a" ["a", "b"] [] [Value.vInt 1, Value.vInt 2] [] (Value.vInt 3)
    rfl rfl rfl rfl (by decide) (by decide)

/-- C8: the markdown renderer returns the `No results found.` message for an
empty result list; for a non-empty list it renders a header row made of the
first row's keys, a separator row, and one row per result, each cell being
`format_cell_value` of the looked-up value; float cells render with a sign,
thousands separators and exactly two decimal places, int cells with a sign
and thousands separators, strings as themselves and `None` via `str`. -/
theorem C8_markdown_rendering :
    (format_results_as_markdown_table [] = "\n**Results:** No results found.")
    ∧ (∀ (r0 : Row) (rest : List Row),
        format_results_as_markdown_table (r0 :: rest) =
          "\n**Results:**\n"
            ++ (("| " ++ pyJoin " | " (r0.map Prod.fst) ++ " |\n"
                  ++ "| " ++ pyJoin " | " ((r0.map Prod.fst).map fun _ => "---") ++ " |\n")
                ++ pyJoin "" ((r0 :: rest).map fun row =>
                    "| " ++ pyJoin " | " ((r0.map Prod.fst).map fun c =>
                      format_cell_value (cellAt row c)) ++ " |\n")))
    ∧ (∀ q : Rat, TwoDecimalsGrouped (format_cell_value (Value.vFloat q)))
    ∧ (∀ n : Int, IntGrouped (format_cell_value (Value.vInt n)) n)
    ∧ (∀ s : String, format_cell_value (Value.vStr s) = s)
    ∧ format_cell_value Value.vNull = "None" := by
  refine ⟨rfl, ?_, fun q => twoDecimalsGrouped_pyFloatStr2 q,
    fun n => intGrouped_intComma n, fun s => rfl, rfl⟩
  intro r0 rest
  unfold format_results_as_markdown_table
  dsimp only
  rw [foldl_append_rows]

end WindForest
